import Mathlib

/-!
Verification development for the rathole client (src/client.rs).

The single source file under verification is src/client.rs. The client's
async I/O is shallowly embedded: every network read, channel operation and
timer that a function awaits is supplied as an explicit input (a script of
events), and the function is modelled as a pure Lean function from that
script to the observable effects the source produces (frames written,
tasks spawned, log records, final Result). Types and helpers that live in
sibling modules of the repository (protocol.rs, config.rs,
config_watcher.rs) are not part of src/ and are modelled from the spec,
each marked as such in its doc comment.
-/

set_option autoImplicit false

namespace Rathole

/-- Byte strings are lists of naturals (one entry per byte). -/
abbrev Bytes := List Nat

/-- Modelled from the spec: a Digest is a fixed-width 32-byte opaque byte
array (protocol.rs, not in src/). The fixed width is not enforced by the
shallow type; the hash function producing digests is kept abstract. -/
abbrev Digest := Bytes

/-- UTF-8 encoding of one character (standard encoding, written out so it
reduces in the kernel). -/
def charUtf8 (c : Char) : Bytes :=
  let n := c.toNat
  if n < 0x80 then [n]
  else if n < 0x800 then
    [0xC0 ||| (n >>> 6), 0x80 ||| (n &&& 0x3F)]
  else if n < 0x10000 then
    [0xE0 ||| (n >>> 12), 0x80 ||| ((n >>> 6) &&& 0x3F), 0x80 ||| (n &&& 0x3F)]
  else
    [0xF0 ||| (n >>> 18), 0x80 ||| ((n >>> 12) &&& 0x3F),
     0x80 ||| ((n >>> 6) &&& 0x3F), 0x80 ||| (n &&& 0x3F)]

/-- UTF-8 bytes of a string, the embedding of Rust's `str::as_bytes`. -/
def strBytes (s : String) : Bytes :=
  (s.data.map charUtf8).flatten

/-- Modelled from the spec: the compile-time protocol version constant
`CURRENT_PROTO_VERSION` from protocol.rs (not in src/). Its concrete value
is irrelevant to the claims; only equality with itself matters. -/
def CURRENT_PROTO_VERSION : Nat := 0

/-- Modelled from the spec: the Hello frame family of protocol.rs (not in
src/): `ControlChannelHello(proto_version, ServiceDigest)` or
`DataChannelHello(proto_version, SessionKey)`. -/
inductive Hello where
  | ControlChannelHello (version : Nat) (d : Digest)
  | DataChannelHello (version : Nat) (d : Digest)
deriving DecidableEq, Repr

/-- The proto_version carried by a Hello frame. -/
def Hello.version : Hello → Nat
  | .ControlChannelHello v _ => v
  | .DataChannelHello v _ => v

/-- Modelled from the spec: the Ack frame of protocol.rs (not in src/):
`Ok` or an enumerated authentication failure. -/
inductive Ack where
  | Ok
  | ServiceNotExist
  | AuthFailed
deriving DecidableEq, Repr

/-- Modelled from the spec: the control-channel command frame of
protocol.rs (not in src/), currently a singleton. -/
inductive ControlChannelCmd where
  | CreateDataChannel
deriving DecidableEq, Repr

/-- Modelled from the spec: the data-channel command frame of protocol.rs
(not in src/). -/
inductive DataChannelCmd where
  | StartForwardTcp
  | StartForwardUdp
deriving DecidableEq, Repr

/-- Frames the control channel writes to its connection. -/
inductive Frame where
  | hello (h : Hello)
  | auth (session_key : Digest)
deriving DecidableEq, Repr

/-- Modelled from the spec: `ClientServiceConfig` from config.rs (not in
src/): name, local_addr, token (optional in the struct), protocol. The
protocol field is not consulted by any claim and is omitted. -/
structure ClientServiceConfig where
  name : String
  local_addr : String
  token : Option String
deriving DecidableEq, Repr

/-- The state owned by one control-channel worker (struct ControlChannel
in client.rs): the digest of the service name, the service config, the
server address. The transport and the shutdown receiver are supplied as
script inputs instead. -/
structure ControlChannel where
  digest : Digest
  service : ClientServiceConfig
  remote_addr : String
deriving DecidableEq, Repr

/-- One event the established-loop of ControlChannel::run awaits: either
the result of read_control_cmd, or the firing of the shutdown one-shot. -/
inductive LoopEvent where
  | cmdRead (r : Except String ControlChannelCmd)
  | shutdown
deriving Repr

/-- The I/O script a single invocation of ControlChannel::run consumes:
whether transport.connect succeeds, the raw result of the hello read, the
raw result of the ack read, and the events of the established loop.
Fields beyond the point where run returns are simply unused. -/
structure RunScript where
  connectOk : Bool
  helloRead : Except String Hello
  ackRead : Except String Ack
  loopEvents : List LoopEvent
deriving Repr

/-- The shared args record captured for every spawned data channel
(struct RunDataChannelArgs in client.rs); the connector is part of the
ambient script instead. -/
structure RunDataChannelArgs where
  session_key : Digest
  remote_addr : String
  local_addr : String
deriving DecidableEq, Repr

/-- The error values ControlChannel::run can return, keeping the contexts
the source attaches (anyhow contexts become constructor payloads). -/
inductive RunError where
  | connectFailed (remote_addr : String)
  | ioError (msg : String)
  | helloReadError (msg : String)
  | protoVersionMismatch (got : Nat)
  | unexpectedHello
  | ackReadError (msg : String)
  | authFailed (service_name : String) (v : Ack)
  | cmdReadError (msg : String)
deriving DecidableEq, Repr

/-- How an invocation of ControlChannel::run ends: returns Ok, returns an
error, panics (token unwrap), or is still blocked awaiting an event the
script did not supply. -/
inductive RunOutcome where
  | ok
  | error (e : RunError)
  | panicked
  | blocked
deriving DecidableEq, Repr

/-- The observable effects of one invocation of ControlChannel::run:
frames written to the connection, data-channel args spawned (in order),
how many Ack frames were read, and the outcome. -/
structure RunResult where
  sent : List Frame
  spawned : List RunDataChannelArgs
  acksRead : Nat
  outcome : RunOutcome
deriving DecidableEq, Repr

/-- Modelled from the spec: `read_hello` of protocol.rs (not in src/)
reads one Hello frame and requires its proto_version to equal the
client's compile-time constant; on mismatch the read fails with a
protocol error, which drops the connection. -/
def read_hello (r : Except String Hello) : Except RunError Hello :=
  match r with
  | .error e => .error (.helloReadError e)
  | .ok h =>
    if h.version ≠ CURRENT_PROTO_VERSION then
      .error (.protoVersionMismatch h.version)
    else
      .ok h

/-- The established loop of ControlChannel::run: select over
read_control_cmd and the shutdown one-shot. CreateDataChannel spawns a
detached data channel with the shared args; a read error returns Err;
shutdown breaks with Ok; an exhausted script leaves the loop blocked. -/
def controlLoop (args : RunDataChannelArgs) :
    List LoopEvent → List RunDataChannelArgs × RunOutcome
  | [] => ([], .blocked)
  | .shutdown :: _ => ([], .ok)
  | .cmdRead (.error e) :: _ => ([], .error (.cmdReadError e))
  | .cmdRead (.ok .CreateDataChannel) :: rest =>
    let (s, o) := controlLoop args rest
    (args :: s, o)

/-- ControlChannel::run (client.rs lines 378-458), embedded over a script.
`hash` stands for protocol::digest (abstract). Steps: connect; send
ControlChannelHello(CURRENT_PROTO_VERSION, digest); read hello, which
must be a ControlChannelHello carrying the nonce; unwrap the token
(panics when absent) and send Auth(hash(token_bytes ++ nonce)); read one
Ack, where anything but Ok fails with the service name in the context;
then run the established loop with the captured args. -/
def ControlChannel.run (hash : Bytes → Digest) (c : ControlChannel)
    (script : RunScript) : RunResult :=
  if ¬ script.connectOk then
    { sent := [], spawned := [], acksRead := 0,
      outcome := .error (.connectFailed c.remote_addr) }
  else
    let sent0 := [Frame.hello (.ControlChannelHello CURRENT_PROTO_VERSION c.digest)]
    match read_hello script.helloRead with
    | .error e =>
      { sent := sent0, spawned := [], acksRead := 0, outcome := .error e }
    | .ok (.DataChannelHello _ _) =>
      { sent := sent0, spawned := [], acksRead := 0, outcome := .error .unexpectedHello }
    | .ok (.ControlChannelHello _ nonce) =>
      match c.service.token with
      | none =>
        { sent := sent0, spawned := [], acksRead := 0, outcome := .panicked }
      | some tok =>
        let concat := strBytes tok ++ nonce
        let session_key := hash concat
        let sent1 := sent0 ++ [Frame.auth session_key]
        match script.ackRead with
        | .error e =>
          { sent := sent1, spawned := [], acksRead := 1,
            outcome := .error (.ackReadError e) }
        | .ok .Ok =>
          let args : RunDataChannelArgs :=
            { session_key := session_key, remote_addr := c.remote_addr,
              local_addr := c.service.local_addr }
          let lo := controlLoop args script.loopEvents
          { sent := sent1, spawned := lo.1, acksRead := 1, outcome := lo.2 }
        | .ok v =>
          { sent := sent1, spawned := [], acksRead := 1,
            outcome := .error (.authFailed c.service.name v) }

/-- View of an Except value as a sum, to derive decidable equality. -/
def exceptToSum {ε α : Type} : Except ε α → ε ⊕ α
  | .error e => .inl e
  | .ok a => .inr a

instance {ε α : Type} [DecidableEq ε] [DecidableEq α] : DecidableEq (Except ε α) :=
  fun a b =>
    decidable_of_iff (exceptToSum a = exceptToSum b)
      (by cases a <;> cases b <;> simp [exceptToSum])

/-! ## Association-list maps

HashMap String-keyed maps of the source (the supervisor's service_handles
and the UdpPortMap, whose SocketAddr keys are embedded as strings) are
modelled as association lists with at most one binding per key. -/

/-- Socket addresses are embedded as opaque strings. -/
abbrev SocketAddr := String

/-- Lookup in an association list (HashMap::get). -/
def hm_lookup {α : Type} (k : String) : List (String × α) → Option α
  | [] => none
  | (k', v) :: rest => if k' = k then some v else hm_lookup k rest

/-- Insert in an association list, replacing an existing binding of the
same key (HashMap::insert). -/
def hm_insert {α : Type} (k : String) (v : α) :
    List (String × α) → List (String × α)
  | [] => [(k, v)]
  | (k', v') :: rest =>
    if k' = k then (k, v) :: rest else (k', v') :: hm_insert k v rest

/-- Remove a binding from an association list (HashMap::remove). -/
def hm_remove {α : Type} (k : String) :
    List (String × α) → List (String × α)
  | [] => []
  | (k', v') :: rest => if k' = k then rest else (k', v') :: hm_remove k rest

/-! ## Constants

From the shared constants module (constants.rs, not in src/). -/

/-- Modelled from the spec: `UDP_BUFFER_SIZE` from the constants module
(not in src/); the concrete value is part of the tuning surface and does
not affect any claim. -/
def UDP_BUFFER_SIZE : Nat := 2048

/-- Modelled from the spec: `UDP_SENDQ_SIZE` from the constants module
(not in src/). -/
def UDP_SENDQ_SIZE : Nat := 1024

/-- Modelled from the spec: `UDP_TIMEOUT` (seconds) from the constants
module (not in src/). -/
def UDP_TIMEOUT : Nat := 60

/-! ## Data-channel worker -/

/-- The two fields of backoff::ExponentialBackoff that client.rs sets
explicitly (the rest keep library defaults and are irrelevant here),
in milliseconds. -/
structure ExponentialBackoff where
  max_interval_ms : Nat
  max_elapsed_time_ms : Option Nat
deriving DecidableEq, Repr

/-- The backoff configured by do_data_channel_handshake (client.rs lines
161-166): max_interval 100 ms, max_elapsed_time 10 s. -/
def handshakeBackoff : ExponentialBackoff :=
  { max_interval_ms := 100, max_elapsed_time_ms := some 10000 }

/-- Modelled from the spec: the contract of the backoff crate's
retry_notify, over the sequence of attempt outcomes the library schedules
within its deadline. The first success yields Ok; each transient failure
that will be retried invokes the notify callback (client.rs logs a
warning with the error); when the policy gives up, the last error is
returned without a further notify. Returns the warning log and the final
result. -/
def retry_notify (attempts : List (Except String Unit)) :
    List String × Except String Unit :=
  match attempts with
  | [] => ([], .error "no attempt made")
  | .ok _ :: _ => ([], .ok ())
  | [.error e] => ([], .error e)
  | .error e :: rest =>
    let p := retry_notify rest
    (e :: p.1, p.2)

/-- Observable effects of do_data_channel_handshake: warnings logged by
the retry notify callback, Hello frames written, and the returned
Result. -/
structure HandshakeResult where
  warns : List String
  sent : List Hello
  result : Except String Unit
deriving Repr

/-- do_data_channel_handshake (client.rs lines 158-192): dial the server
under handshakeBackoff (each failure logged via the notify callback,
exhaustion propagated by the question-mark operator), then write
DataChannelHello(CURRENT_PROTO_VERSION, args.session_key) and flush.
writeOk is the combined result of write_all and flush. -/
def do_data_channel_handshake (args : RunDataChannelArgs)
    (attempts : List (Except String Unit)) (writeOk : Bool) : HandshakeResult :=
  let p := retry_notify attempts
  match p.2 with
  | .error e => { warns := p.1, sent := [], result := .error e }
  | .ok _ =>
    let hello := Hello.DataChannelHello CURRENT_PROTO_VERSION args.session_key
    { warns := p.1, sent := [hello],
      result := if writeOk then .ok () else .error "write failed" }

/-- run_data_channel_for_tcp (client.rs lines 212-223): connect to
local_addr, attaching the context string on failure; the result of
copy_bidirectional is discarded, so a finished splice returns Ok. -/
def run_data_channel_for_tcp (tcpConnect : Except String Unit) :
    Except String Unit :=
  match tcpConnect with
  | .error e => .error ("Failed to connect to local_addr: " ++ e)
  | .ok _ => .ok ()

/-- One iteration's input to the UDP demultiplex loop of
run_data_channel_for_udp: either the header/frame read from the server
fails (the question-mark operator ends the loop), or a UdpTraffic packet
arrives from source address src with payload data, with udpConnectOk the
outcome of udp_connect(local_addr) in case a forwarder must be set up. -/
inductive DemuxEvent where
  | readErr (msg : String)
  | packet (src : SocketAddr) (data : Bytes) (udpConnectOk : Bool)
deriving Repr

/-- How the UDP demultiplex loop stands after consuming its script: still
blocked reading (the loop has no Ok exit), or returned an error. -/
inductive DemuxOutcome where
  | blocked
  | errored (msg : String)
deriving DecidableEq, Repr

/-- Observable state of run_data_channel_for_udp after consuming its
script: the port map (SocketAddr to forwarder id), forwarders spawned (in
order), packets delivered into forwarder inbound channels, number of
udp_connect errors logged, and the outcome. -/
structure DemuxResult where
  port_map : List (SocketAddr × Nat)
  spawnedF : List SocketAddr
  delivered : List (SocketAddr × Bytes)
  connectErrLogs : Nat
  outcome : DemuxOutcome
deriving DecidableEq, Repr

/-- The port-map update one packet of the demux loop performs (client.rs
lines 267-298): a packet from a known source leaves the map untouched; an
unknown source with a successful udp_connect inserts a fresh forwarder id
and spawns that forwarder; an unknown source with a failed udp_connect
only logs the error. Returns (map, forwarders spawned, errors logged,
next fresh id). -/
def demuxStep (nextId : Nat) (m : List (SocketAddr × Nat)) (src : SocketAddr)
    (cok : Bool) : List (SocketAddr × Nat) × List SocketAddr × Nat × Nat :=
  match hm_lookup src m with
  | some _ => (m, [], 0, nextId)
  | none =>
    if cok then (hm_insert src nextId m, [src], 0, nextId + 1)
    else (m, [], 1, nextId)

/-- The reader loop of run_data_channel_for_udp (client.rs lines
259-305): read a packet; under the read lock look up packet.from; if
absent, take the write lock and udp_connect(local_addr) — on success
insert a fresh forwarder's sender and spawn it, on failure only log the
error; then re-lookup and, if present, deliver the payload (send result
discarded). nextId numbers spawned forwarders in order. -/
def demuxLoop (nextId : Nat) (m : List (SocketAddr × Nat)) :
    List DemuxEvent → DemuxResult
  | [] =>
    { port_map := m, spawnedF := [], delivered := [], connectErrLogs := 0,
      outcome := .blocked }
  | .readErr msg :: _ =>
    { port_map := m, spawnedF := [], delivered := [], connectErrLogs := 0,
      outcome := .errored msg }
  | .packet src data cok :: rest =>
    let st := demuxStep nextId m src cok
    let deliveredHere :=
      match hm_lookup src st.1 with
      | some _ => [(src, data)]
      | none => []
    let r := demuxLoop st.2.2.2 st.1 rest
    { port_map := r.port_map,
      spawnedF := st.2.1 ++ r.spawnedF,
      delivered := deliveredHere ++ r.delivered,
      connectErrLogs := st.2.2.1 + r.connectErrLogs,
      outcome := r.outcome }

/-- run_data_channel_for_udp (client.rs lines 232-306): starts from an
empty port map and runs the reader loop (the writer task draining the
outbound channel is independent and not consulted by any claim). -/
def run_data_channel_for_udp (events : List DemuxEvent) : DemuxResult :=
  demuxLoop 0 [] events

/-- How run_data_channel ends: Ok, an error (which the spawn wrapper in
the control channel logs), or still blocked in the UDP loop. -/
inductive DcOutcome where
  | ok
  | error (msg : String)
  | blocked
deriving DecidableEq, Repr

/-- The I/O script of one data-channel worker: the dial attempts consumed
by the handshake backoff, the hello write result, the DataChannelCmd
read, the TCP dial of local_addr, and the UDP demux events (whichever of
the last two the command selects is used). -/
structure DataChannelScript where
  attempts : List (Except String Unit)
  writeOk : Bool
  cmdRead : Except String DataChannelCmd
  tcpConnect : Except String Unit
  demuxEvents : List DemuxEvent
deriving Repr

/-- Observable effects of run_data_channel. -/
structure DataChannelResult where
  warns : List String
  sentHello : List Hello
  demux : Option DemuxResult
  outcome : DcOutcome
deriving Repr

/-- run_data_channel (client.rs lines 194-208): handshake (errors
propagate and fail the worker), read the data command, then dispatch to
the TCP splice or the UDP demux loop. -/
def run_data_channel (args : RunDataChannelArgs)
    (script : DataChannelScript) : DataChannelResult :=
  let h := do_data_channel_handshake args script.attempts script.writeOk
  match h.result with
  | .error e =>
    { warns := h.warns, sentHello := h.sent, demux := none, outcome := .error e }
  | .ok _ =>
    match script.cmdRead with
    | .error e =>
      { warns := h.warns, sentHello := h.sent, demux := none, outcome := .error e }
    | .ok .StartForwardTcp =>
      match run_data_channel_for_tcp script.tcpConnect with
      | .error e =>
        { warns := h.warns, sentHello := h.sent, demux := none, outcome := .error e }
      | .ok _ =>
        { warns := h.warns, sentHello := h.sent, demux := none, outcome := .ok }
    | .ok .StartForwardUdp =>
      let d := run_data_channel_for_udp script.demuxEvents
      { warns := h.warns, sentHello := h.sent, demux := some d,
        outcome :=
          match d.outcome with
          | .blocked => .blocked
          | .errored e => .error e }

/-! ## UDP forwarder -/

/-- A UdpTraffic frame: visitor address and payload. -/
structure UdpTraffic where
  from' : SocketAddr
  data : Bytes
deriving DecidableEq, Repr

/-- One iteration's input to run_udp_forwarder's select: a value from the
inbound channel (none when the channel is closed) together with the
result of forwarding it to the local socket; or a receive on the local
socket together with the result of the outbound channel send; or the
idle timer (armed afresh each iteration at UDP_TIMEOUT seconds)
firing. -/
inductive FwdEvent where
  | inbound (data : Option Bytes) (sendRes : Except String Unit)
  | localRecv (res : Except String Bytes) (outboundRes : Except String Unit)
  | timeout
deriving Repr

/-- How run_udp_forwarder stands after its script: still blocked in the
select, or returned with a Result. -/
inductive FwdOutcome where
  | blocked
  | finished (r : Except String Unit)
deriving DecidableEq, Repr

/-- Observable state of run_udp_forwarder after consuming its script:
the port map, the UdpTraffic frames sent outbound, and the outcome. -/
structure FwdResult where
  port_map : List (SocketAddr × Nat)
  outbound : List UdpTraffic
  outcome : FwdOutcome
deriving DecidableEq, Repr

/-- The select loop of run_udp_forwarder (client.rs lines 321-352) plus
the epilogue (lines 354-358). Inbound data is written to the local
socket, where the question-mark operator on a send error returns
immediately; a closed inbound channel breaks. A local receive error
breaks; received bytes (at most UDP_BUFFER_SIZE, the buffer size) are
wrapped in UdpTraffic tagged from' and sent outbound, where the
question-mark operator on a send error returns immediately. The idle
timer breaks. After a break the entry for from' is removed from the port
map under the write lock and Ok is returned; the early question-mark
returns skip the epilogue. -/
def fwdLoop (from' : SocketAddr) (m : List (SocketAddr × Nat))
    (acc : List UdpTraffic) : List FwdEvent → FwdResult
  | [] => { port_map := m, outbound := acc, outcome := .blocked }
  | .inbound none _ :: _ =>
    { port_map := hm_remove from' m, outbound := acc,
      outcome := .finished (.ok ()) }
  | .inbound (some _) (.ok _) :: rest => fwdLoop from' m acc rest
  | .inbound (some _) (.error e) :: _ =>
    { port_map := m, outbound := acc, outcome := .finished (.error e) }
  | .localRecv (.error _) _ :: _ =>
    { port_map := hm_remove from' m, outbound := acc,
      outcome := .finished (.ok ()) }
  | .localRecv (.ok data) (.ok _) :: rest =>
    fwdLoop from' m (acc ++ [{ from' := from', data := data.take UDP_BUFFER_SIZE }]) rest
  | .localRecv (.ok _) (.error e) :: _ =>
    { port_map := m, outbound := acc, outcome := .finished (.error e) }
  | .timeout :: _ =>
    { port_map := hm_remove from' m, outbound := acc,
      outcome := .finished (.ok ()) }

/-- run_udp_forwarder (client.rs lines 310-359) for visitor from',
starting from the given shared port map. -/
def run_udp_forwarder (from' : SocketAddr) (port_map : List (SocketAddr × Nat))
    (events : List FwdEvent) : FwdResult :=
  fwdLoop from' port_map [] events

/-! ## Control-channel handle retry loop -/

/-- The result of oneshot::Receiver::try_recv: a value, Empty (no signal
yet), or Closed (sender dropped). try_recv() differing from Err(Empty)
means a signal arrived or the sender was dropped. -/
inductive TryRecvResult where
  | empty
  | value (v : Nat)
  | closed
deriving DecidableEq, Repr

/-- Actions of the spawned retry loop, in order: an invocation of
ControlChannel::run, or a sleep of the given number of seconds. -/
inductive HandleAction where
  | runAttempt
  | sleepSecs (n : Nat)
deriving DecidableEq, Repr

/-- The retry loop spawned by ControlChannelHandle::new (client.rs lines
480-497): while run() returns Err, poll the shutdown one-shot with
try_recv — anything but Err(Empty) breaks the loop permanently —
otherwise log, sleep Duration::from_secs(1), and redial. The script
supplies each iteration's run outcome and the poll result consulted on
error. Returns the trace of actions. -/
def retryLoop : List (Except RunError Unit × TryRecvResult) → List HandleAction
  | [] => []
  | (res, poll) :: rest =>
    HandleAction.runAttempt ::
      match res with
      | .ok _ => []
      | .error _ =>
        match poll with
        | .empty => HandleAction.sleepSecs 1 :: retryLoop rest
        | _ => []

/-! ## Supervisor -/

/-- Modelled from the spec: the ServiceChange event stream of
config_watcher.rs (not in src/): ClientAdd(ServiceConfig),
ClientDelete(name), and other (server-side) variants, collapsed into one
Other constructor since client.rs treats them all with a wildcard arm. -/
inductive ServiceChange where
  | ClientAdd (s : ClientServiceConfig)
  | ClientDelete (name : String)
  | Other
deriving Repr

/-- One iteration of the service_rx arm of Client::run's select (client.rs
lines 120-138): ClientAdd builds a fresh handle (its id is the fresh
parameter) and inserts it under the service name, dropping any replaced
handle; ClientDelete removes the named entry, dropping it; every other
variant does nothing. Returns the new handle map and the handles dropped
by the step. -/
def clientStep (fresh : Nat) (m : List (String × Nat)) :
    ServiceChange → List (String × Nat) × List Nat
  | .ClientAdd s => (hm_insert s.name fresh m, (hm_lookup s.name m).toList)
  | .ClientDelete n => (hm_remove n m, (hm_lookup n m).toList)
  | .Other => (m, [])

/-- The handle map after the supervisor has consumed a sequence of
ServiceChange events, numbering fresh handles consecutively from
fresh. -/
def runEvents (fresh : Nat) (m : List (String × Nat)) :
    List ServiceChange → List (String × Nat)
  | [] => m
  | e :: rest => runEvents (fresh + 1) (clientStep fresh m e).1 rest

/-! ## Helper lemmas -/

theorem hm_lookup_insert_self {α : Type} (k : String) (v : α)
    (m : List (String × α)) : hm_lookup k (hm_insert k v m) = some v := by
  induction m with
  | nil => simp [hm_insert, hm_lookup]
  | cons p rest ih =>
    obtain ⟨k', v'⟩ := p
    by_cases h : k' = k <;> simp [hm_insert, hm_lookup, h, ih]

theorem hm_insert_keys {α : Type} (k : String) (v : α) (m : List (String × α)) :
    (hm_insert k v m).map Prod.fst =
      if k ∈ m.map Prod.fst then m.map Prod.fst else m.map Prod.fst ++ [k] := by
  induction m with
  | nil => simp [hm_insert]
  | cons p rest ih =>
    obtain ⟨k', v'⟩ := p
    by_cases h : k' = k
    · subst h
      simp [hm_insert]
    · have h' : ¬ (k = k') := fun hk => h hk.symm
      by_cases hmem : k ∈ rest.map Prod.fst <;>
        simp [hm_insert, h, h', hmem, ih]

theorem hm_insert_nodup {α : Type} (k : String) (v : α) (m : List (String × α))
    (h : (m.map Prod.fst).Nodup) : ((hm_insert k v m).map Prod.fst).Nodup := by
  rw [hm_insert_keys]
  by_cases hmem : k ∈ m.map Prod.fst
  · simpa [hmem] using h
  · have happ : (m.map Prod.fst ++ [k]).Nodup := by
      simp [List.nodup_append, h, hmem]
    simpa [hmem] using happ

theorem hm_remove_keys_sublist {α : Type} (k : String) (m : List (String × α)) :
    ((hm_remove k m).map Prod.fst).Sublist (m.map Prod.fst) := by
  induction m with
  | nil => simp [hm_remove]
  | cons p rest ih =>
    obtain ⟨k', v'⟩ := p
    by_cases h : k' = k
    · simp [hm_remove, h]
    · simpa [hm_remove, h] using ih

theorem hm_remove_nodup {α : Type} (k : String) (m : List (String × α))
    (h : (m.map Prod.fst).Nodup) : ((hm_remove k m).map Prod.fst).Nodup :=
  (hm_remove_keys_sublist k m).nodup h

theorem hm_lookup_eq_none_of_not_mem {α : Type} (k : String)
    (m : List (String × α)) (h : k ∉ m.map Prod.fst) : hm_lookup k m = none := by
  induction m with
  | nil => simp [hm_lookup]
  | cons p rest ih =>
    obtain ⟨k', v'⟩ := p
    have h1 : ¬ (k' = k) := fun hk => h (by simp [hk])
    have h2 : k ∉ rest.map Prod.fst := fun hk => h (by simp [hk])
    simp [hm_lookup, h1, ih h2]

theorem hm_lookup_remove_self {α : Type} (k : String) (m : List (String × α))
    (h : (m.map Prod.fst).Nodup) : hm_lookup k (hm_remove k m) = none := by
  induction m with
  | nil => simp [hm_remove, hm_lookup]
  | cons p rest ih =>
    obtain ⟨k', v'⟩ := p
    have hnd : (rest.map Prod.fst).Nodup := (List.nodup_cons.mp h).2
    by_cases hk : k' = k
    · subst hk
      have hout : k' ∉ rest.map Prod.fst := (List.nodup_cons.mp h).1
      simpa [hm_remove] using hm_lookup_eq_none_of_not_mem _ _ hout
    · simp [hm_remove, hk, hm_lookup, ih hnd]

theorem controlLoop_mem (args : RunDataChannelArgs) :
    ∀ evs : List LoopEvent, ∀ a ∈ (controlLoop args evs).1, a = args := by
  intro evs
  induction evs with
  | nil => simp [controlLoop]
  | cons e rest ih =>
    cases e with
    | shutdown => simp [controlLoop]
    | cmdRead r =>
      cases r with
      | error e => simp [controlLoop]
      | ok cmd =>
        cases cmd
        intro a ha
        simp [controlLoop] at ha
        rcases ha with h | h
        · exact h
        · exact ih a h

theorem controlLoop_ne_panicked (args : RunDataChannelArgs) :
    ∀ evs : List LoopEvent, (controlLoop args evs).2 ≠ .panicked := by
  intro evs
  induction evs with
  | nil => simp [controlLoop]
  | cons e rest ih =>
    cases e with
    | shutdown => simp [controlLoop]
    | cmdRead r =>
      cases r with
      | error e => simp [controlLoop]
      | ok cmd =>
        cases cmd
        simpa [controlLoop] using ih

theorem do_data_channel_handshake_sent_eq (args : RunDataChannelArgs)
    (attempts : List (Except String Unit)) (writeOk : Bool) :
    ∀ h ∈ (do_data_channel_handshake args attempts writeOk).sent,
      h = Hello.DataChannelHello CURRENT_PROTO_VERSION args.session_key := by
  unfold do_data_channel_handshake
  cases hr : (retry_notify attempts).2 <;> simp [hr]

/-- Reduction of ControlChannel.run once connect succeeded, a well-versed
ControlChannelHello nonce was read, and the token is present: the run is
determined by the ack read and the established loop. -/
theorem run_eq_of_auth (hash : Bytes → Digest) (c : ControlChannel)
    (script : RunScript) (nonce : Bytes) (tok : String)
    (hconn : script.connectOk = true)
    (hhello : script.helloRead =
      .ok (.ControlChannelHello CURRENT_PROTO_VERSION nonce))
    (htok : c.service.token = some tok) :
    ControlChannel.run hash c script =
      (match script.ackRead with
        | .error e =>
          { sent := [Frame.hello (.ControlChannelHello CURRENT_PROTO_VERSION c.digest),
              Frame.auth (hash (strBytes tok ++ nonce))],
            spawned := [], acksRead := 1,
            outcome := .error (.ackReadError e) }
        | .ok .Ok =>
          let args : RunDataChannelArgs :=
            { session_key := hash (strBytes tok ++ nonce),
              remote_addr := c.remote_addr, local_addr := c.service.local_addr }
          let lo := controlLoop args script.loopEvents
          { sent := [Frame.hello (.ControlChannelHello CURRENT_PROTO_VERSION c.digest),
              Frame.auth (hash (strBytes tok ++ nonce))],
            spawned := lo.1, acksRead := 1, outcome := lo.2 }
        | .ok v =>
          { sent := [Frame.hello (.ControlChannelHello CURRENT_PROTO_VERSION c.digest),
              Frame.auth (hash (strBytes tok ++ nonce))],
            spawned := [], acksRead := 1,
            outcome := .error (.authFailed c.service.name v) }) := by
  simp [ControlChannel.run, hconn, hhello, htok, read_hello, Hello.version]

/-! ## Claim theorems -/

/-- Claim C1: for every token string and every 32-byte nonce received in
the server's ControlChannelHello, the Auth frame sent by the control
channel carries session_key = digest(token_bytes ++ nonce), and the
session_key carried in every DataChannelHello written by a data-channel
worker equals the session_key of the parent control channel's successful
authentication, captured in the args at spawn time. -/
theorem C1_session_key_derivation (hash : Bytes → Digest) (c : ControlChannel)
    (script : RunScript) (nonce : Bytes) (tok : String)
    (hconn : script.connectOk = true)
    (hhello : script.helloRead =
      .ok (.ControlChannelHello CURRENT_PROTO_VERSION nonce))
    (htok : c.service.token = some tok) :
    Frame.auth (hash (strBytes tok ++ nonce)) ∈
      (ControlChannel.run hash c script).sent ∧
    (∀ k, Frame.auth k ∈ (ControlChannel.run hash c script).sent →
      k = hash (strBytes tok ++ nonce)) ∧
    (∀ args ∈ (ControlChannel.run hash c script).spawned,
      args.session_key = hash (strBytes tok ++ nonce) ∧
      ∀ (attempts : List (Except String Unit)) (writeOk : Bool),
        ∀ hf ∈ (do_data_channel_handshake args attempts writeOk).sent,
          hf = Hello.DataChannelHello CURRENT_PROTO_VERSION
            (hash (strBytes tok ++ nonce))) := by
  have hrun := run_eq_of_auth hash c script nonce tok hconn hhello htok
  rcases hack : script.ackRead with e | a
  · rw [hrun, hack]
    simp
  · cases a with
    | Ok =>
      rw [hrun, hack]
      refine ⟨by simp, by simp, ?_⟩
      intro args hmem
      simp at hmem
      have hargs := controlLoop_mem _ _ _ hmem
      subst hargs
      exact ⟨rfl, fun attempts writeOk hf hfmem =>
        do_data_channel_handshake_sent_eq _ attempts writeOk hf hfmem⟩
    | ServiceNotExist =>
      rw [hrun, hack]
      simp
    | AuthFailed =>
      rw [hrun, hack]
      simp

/-- Witness for C1 at a concrete hash, service and script. -/
theorem C1_session_key_derivation_witness :
    Frame.auth (strBytes "T" ++ [5, 6]) ∈
      (ControlChannel.run (fun l => l)
        { digest := [1],
          service := { name := "s", local_addr := "l", token := some "T" },
          remote_addr := "r" }
        { connectOk := true,
          helloRead := .ok (.ControlChannelHello CURRENT_PROTO_VERSION [5, 6]),
          ackRead := .ok .Ok,
          loopEvents := [.cmdRead (.ok .CreateDataChannel), .shutdown] }).sent :=
  (C1_session_key_derivation (fun l => l)
    { digest := [1],
      service := { name := "s", local_addr := "l", token := some "T" },
      remote_addr := "r" }
    { connectOk := true,
      helloRead := .ok (.ControlChannelHello CURRENT_PROTO_VERSION [5, 6]),
      ackRead := .ok .Ok,
      loopEvents := [.cmdRead (.ok .CreateDataChannel), .shutdown] }
    [5, 6] "T" rfl rfl rfl).1

/-- Claim C3: for every Hello frame received from the server whose
proto_version differs from the client's compile-time constant, the read
fails with a protocol error within that one frame-read: ControlChannel::run
returns the error immediately (dropping the connection), sends nothing
beyond its own hello, reads no Ack and spawns nothing; the handle's retry
loop then enters backoff (sleep 1 s, redial) while no shutdown signal has
fired. -/
theorem C3_proto_version_mismatch (hash : Bytes → Digest) (c : ControlChannel)
    (script : RunScript) (h : Hello)
    (hconn : script.connectOk = true)
    (hread : script.helloRead = .ok h)
    (hv : h.version ≠ CURRENT_PROTO_VERSION) :
    (ControlChannel.run hash c script).outcome =
      .error (.protoVersionMismatch h.version) ∧
    (ControlChannel.run hash c script).sent =
      [Frame.hello (.ControlChannelHello CURRENT_PROTO_VERSION c.digest)] ∧
    (ControlChannel.run hash c script).acksRead = 0 ∧
    (ControlChannel.run hash c script).spawned = [] ∧
    (∀ rest, retryLoop ((.error (.protoVersionMismatch h.version), .empty) :: rest) =
      HandleAction.runAttempt :: HandleAction.sleepSecs 1 :: retryLoop rest) := by
  have hrh : read_hello script.helloRead =
      .error (.protoVersionMismatch h.version) := by
    simp [read_hello, hread, hv]
  refine ⟨?_, ?_, ?_, ?_, ?_⟩ <;>
    simp [ControlChannel.run, hconn, hrh, retryLoop]

/-- Witness for C3 at a concrete mismatched version. -/
theorem C3_proto_version_mismatch_witness :
    (ControlChannel.run (fun l => l)
      { digest := [1],
        service := { name := "s", local_addr := "l", token := some "T" },
        remote_addr := "r" }
      { connectOk := true,
        helloRead := .ok (.ControlChannelHello (CURRENT_PROTO_VERSION + 1) [5]),
        ackRead := .ok .Ok, loopEvents := [] }).outcome =
      .error (.protoVersionMismatch
        (Hello.ControlChannelHello (CURRENT_PROTO_VERSION + 1) [5]).version) :=
  (C3_proto_version_mismatch (fun l => l)
    { digest := [1],
      service := { name := "s", local_addr := "l", token := some "T" },
      remote_addr := "r" }
    { connectOk := true,
      helloRead := .ok (.ControlChannelHello (CURRENT_PROTO_VERSION + 1) [5]),
      ackRead := .ok .Ok, loopEvents := [] }
    (.ControlChannelHello (CURRENT_PROTO_VERSION + 1) [5])
    rfl rfl (by decide)).1

/-- Claim C10: ControlChannel::run unwraps service.token before computing
the session key, so a configuration with token absent panics at the
authentication step (after a valid nonce is received); when token is
present the panic branch is unreachable for every script. -/
theorem C10_token_unwrap_panics (hash : Bytes → Digest) (c : ControlChannel) :
    (∀ script : RunScript, ∀ nonce : Bytes,
      script.connectOk = true →
      script.helloRead = .ok (.ControlChannelHello CURRENT_PROTO_VERSION nonce) →
      c.service.token = none →
      (ControlChannel.run hash c script).outcome = .panicked) ∧
    (c.service.token ≠ none →
      ∀ script : RunScript,
        (ControlChannel.run hash c script).outcome ≠ .panicked) := by
  constructor
  · intro script nonce hconn hhello htok
    simp [ControlChannel.run, hconn, hhello, htok, read_hello, Hello.version]
  · intro htok script
    obtain ⟨tok, htok'⟩ := Option.ne_none_iff_exists'.mp htok
    by_cases hconn : script.connectOk
    · rcases hh : script.helloRead with e | hello
      · simp [ControlChannel.run, hconn, hh, read_hello]
      · by_cases hv : hello.version = CURRENT_PROTO_VERSION
        · cases hello with
          | DataChannelHello v d =>
            simp [ControlChannel.run, hconn, hh, read_hello, hv]
          | ControlChannelHello v d =>
            rcases hack : script.ackRead with e | a
            · simp [ControlChannel.run, hconn, hh, read_hello, hv, htok', hack]
            · cases a <;>
                simp [ControlChannel.run, hconn, hh, read_hello, hv, htok', hack,
                  controlLoop_ne_panicked]
        · simp [ControlChannel.run, hconn, hh, read_hello, hv]
    · simp [ControlChannel.run, hconn]

/-- Witness for C10: a tokenless service panics on a concrete script; a
service with a token does not. -/
theorem C10_token_unwrap_panics_witness :
    (ControlChannel.run (fun l => l)
      { digest := [1],
        service := { name := "s", local_addr := "l", token := none },
        remote_addr := "r" }
      { connectOk := true,
        helloRead := .ok (.ControlChannelHello CURRENT_PROTO_VERSION [5]),
        ackRead := .ok .Ok, loopEvents := [] }).outcome = .panicked ∧
    (ControlChannel.run (fun l => l)
      { digest := [1],
        service := { name := "s", local_addr := "l", token := some "T" },
        remote_addr := "r" }
      { connectOk := true,
        helloRead := .ok (.ControlChannelHello CURRENT_PROTO_VERSION [5]),
        ackRead := .ok .Ok, loopEvents := [] }).outcome ≠ .panicked :=
  ⟨(C10_token_unwrap_panics (fun l => l)
      { digest := [1],
        service := { name := "s", local_addr := "l", token := none },
        remote_addr := "r" }).1
    { connectOk := true,
      helloRead := .ok (.ControlChannelHello CURRENT_PROTO_VERSION [5]),
      ackRead := .ok .Ok, loopEvents := [] }
    [5] rfl rfl rfl,
   (C10_token_unwrap_panics (fun l => l)
      { digest := [1],
        service := { name := "s", local_addr := "l", token := some "T" },
        remote_addr := "r" }).2
    (by decide)
    { connectOk := true,
      helloRead := .ok (.ControlChannelHello CURRENT_PROTO_VERSION [5]),
      ackRead := .ok .Ok, loopEvents := [] }⟩

/-- Claim C5: after sending Auth the control channel reads exactly one
Ack; Ack::Ok enters the established loop, and any other Ack variant makes
the worker return an error carrying the service name in its context, with
nothing spawned and the connection dropped; the handle's retry loop then
backs off (sleep 1 s) and redials rather than giving up, as long as no
shutdown signal has fired. -/
theorem C5_auth_ack (hash : Bytes → Digest) (c : ControlChannel)
    (script : RunScript) (nonce : Bytes) (tok : String)
    (hconn : script.connectOk = true)
    (hhello : script.helloRead =
      .ok (.ControlChannelHello CURRENT_PROTO_VERSION nonce))
    (htok : c.service.token = some tok) :
    (ControlChannel.run hash c script).acksRead = 1 ∧
    (script.ackRead = .ok .Ok →
      (ControlChannel.run hash c script).spawned =
        (controlLoop
          { session_key := hash (strBytes tok ++ nonce),
            remote_addr := c.remote_addr, local_addr := c.service.local_addr }
          script.loopEvents).1 ∧
      (ControlChannel.run hash c script).outcome =
        (controlLoop
          { session_key := hash (strBytes tok ++ nonce),
            remote_addr := c.remote_addr, local_addr := c.service.local_addr }
          script.loopEvents).2) ∧
    (∀ v, script.ackRead = .ok v → v ≠ .Ok →
      (ControlChannel.run hash c script).outcome =
        .error (.authFailed c.service.name v) ∧
      (ControlChannel.run hash c script).spawned = []) ∧
    (∀ (e : RunError) rest, retryLoop ((.error e, .empty) :: rest) =
      HandleAction.runAttempt :: HandleAction.sleepSecs 1 :: retryLoop rest) := by
  have hrun := run_eq_of_auth hash c script nonce tok hconn hhello htok
  refine ⟨?_, ?_, ?_, ?_⟩
  · rcases hack : script.ackRead with e | a
    · rw [hrun, hack]
    · cases a <;> rw [hrun, hack]
  · intro hack
    rw [hrun, hack]
    exact ⟨rfl, rfl⟩
  · intro v hack hv
    rw [hrun, hack]
    cases v with
    | Ok => exact absurd rfl hv
    | ServiceNotExist => exact ⟨rfl, rfl⟩
    | AuthFailed => exact ⟨rfl, rfl⟩
  · intro e rest
    simp [retryLoop]

/-- Witness for C5: a concrete rejected authentication. -/
theorem C5_auth_ack_witness :
    (ControlChannel.run (fun l => l)
      { digest := [1],
        service := { name := "s", local_addr := "l", token := some "T" },
        remote_addr := "r" }
      { connectOk := true,
        helloRead := .ok (.ControlChannelHello CURRENT_PROTO_VERSION [5]),
        ackRead := .ok .AuthFailed, loopEvents := [] }).outcome =
      .error (.authFailed "s" .AuthFailed) :=
  ((C5_auth_ack (fun l => l)
    { digest := [1],
      service := { name := "s", local_addr := "l", token := some "T" },
      remote_addr := "r" }
    { connectOk := true,
      helloRead := .ok (.ControlChannelHello CURRENT_PROTO_VERSION [5]),
      ackRead := .ok .AuthFailed, loopEvents := [] }
    [5] "T" rfl rfl rfl).2.2.1 .AuthFailed rfl (by decide)).1

/-- Claim C6: whenever a control-channel worker's run() returns an error,
the retry loop polls the shutdown one-shot non-blockingly; any poll
result other than Empty terminates the loop permanently (exactly one run
attempt, no reconnect), while Empty sleeps exactly 1 second and then
redials. -/
theorem C6_shutdown_stops_retry (e : RunError) (p : TryRecvResult)
    (rest : List (Except RunError Unit × TryRecvResult)) :
    (p ≠ .empty → retryLoop ((.error e, p) :: rest) = [HandleAction.runAttempt]) ∧
    (p ≠ .empty →
      (retryLoop ((.error e, p) :: rest)).count HandleAction.runAttempt = 1) ∧
    (p = .empty → retryLoop ((.error e, p) :: rest) =
      HandleAction.runAttempt :: HandleAction.sleepSecs 1 :: retryLoop rest) := by
  refine ⟨?_, ?_, ?_⟩ <;> intro hp <;> cases p <;> simp_all [retryLoop]

/-- Witness for C6: a dropped sender (Closed) stops the retry loop even
with more scripted outcomes pending. -/
theorem C6_shutdown_stops_retry_witness :
    retryLoop [(.error (.connectFailed "r"), .closed),
      (.error (.connectFailed "r"), .empty)] = [HandleAction.runAttempt] :=
  (C6_shutdown_stops_retry (.connectFailed "r") .closed
    [(.error (.connectFailed "r"), .empty)]).1 (by decide)

theorem runEvents_nodup (evs : List ServiceChange) :
    ∀ (fresh : Nat) (m : List (String × Nat)), (m.map Prod.fst).Nodup →
      ((runEvents fresh m evs).map Prod.fst).Nodup := by
  induction evs with
  | nil =>
    intro fresh m h
    simpa [runEvents] using h
  | cons e rest ih =>
    intro fresh m h
    have hstep : ((clientStep fresh m e).1.map Prod.fst).Nodup := by
      cases e with
      | ClientAdd s => exact hm_insert_nodup _ _ _ h
      | ClientDelete n => exact hm_remove_nodup _ _ h
      | Other => exact h
    simpa [runEvents] using ih _ _ hstep

/-- Claim C7: the supervisor keeps at most one control-channel handle per
service name at every instant (the key list stays duplicate-free after
each event and any event sequence); ClientAdd replaces the entry of the
same name with the fresh handle and drops the previous one, ClientDelete
drops the named entry, and every other ServiceChange variant leaves the
map untouched and drops nothing. -/
theorem C7_single_handle (fresh : Nat) (m : List (String × Nat))
    (hnodup : (m.map Prod.fst).Nodup) :
    (∀ e, ((clientStep fresh m e).1.map Prod.fst).Nodup) ∧
    (∀ s : ClientServiceConfig,
      hm_lookup s.name (clientStep fresh m (.ClientAdd s)).1 = some fresh ∧
      (clientStep fresh m (.ClientAdd s)).2 = (hm_lookup s.name m).toList) ∧
    (∀ n, hm_lookup n (clientStep fresh m (.ClientDelete n)).1 = none ∧
      (clientStep fresh m (.ClientDelete n)).2 = (hm_lookup n m).toList) ∧
    clientStep fresh m .Other = (m, []) ∧
    (∀ evs, ((runEvents fresh m evs).map Prod.fst).Nodup) := by
  refine ⟨?_, ?_, ?_, rfl, fun evs => runEvents_nodup evs fresh m hnodup⟩
  · intro e
    cases e with
    | ClientAdd s => exact hm_insert_nodup _ _ _ hnodup
    | ClientDelete n => exact hm_remove_nodup _ _ hnodup
    | Other => exact hnodup
  · intro s
    exact ⟨hm_lookup_insert_self _ _ _, rfl⟩
  · intro n
    exact ⟨hm_lookup_remove_self _ _ hnodup, rfl⟩

/-- Witness for C7: adding a service whose name collides with an existing
entry replaces it with the fresh handle and drops the old one. -/
theorem C7_single_handle_witness :
    hm_lookup "a" (clientStep 7 [("a", 0)]
      (.ClientAdd { name := "a", local_addr := "l", token := none })).1 =
      some 7 ∧
    (clientStep 7 [("a", 0)]
      (.ClientAdd { name := "a", local_addr := "l", token := none })).2 =
      (hm_lookup "a" [("a", 0)]).toList :=
  (C7_single_handle 7 [("a", 0)] (by simp)).2.1
    { name := "a", local_addr := "l", token := none }

/-- Claim C8: the data-channel handshake dials under an exponential
backoff with maximum retry interval 100 ms and overall deadline 10 s;
every dial failure that the policy retries is logged as a warning by the
notify callback, and exhaustion of the backoff makes the handshake, and
with it the whole data-channel worker, return the error. -/
theorem C8_handshake_backoff (args : RunDataChannelArgs) :
    handshakeBackoff.max_interval_ms = 100 ∧
    handshakeBackoff.max_elapsed_time_ms = some 10000 ∧
    (∀ (e : String) (a : Except String Unit) (rest : List (Except String Unit)),
      (retry_notify (.error e :: a :: rest)).1 =
        e :: (retry_notify (a :: rest)).1) ∧
    (∀ (script : DataChannelScript) (e : String),
      (retry_notify script.attempts).2 = .error e →
      (run_data_channel args script).outcome = .error e ∧
      (run_data_channel args script).sentHello = []) := by
  refine ⟨rfl, rfl, ?_, ?_⟩
  · intro e a rest
    rfl
  · intro script e hr
    constructor <;> simp [run_data_channel, do_data_channel_handshake, hr]

/-- Witness for C8: a single failing dial attempt at the deadline fails
the whole worker with that error. -/
theorem C8_handshake_backoff_witness :
    (run_data_channel { session_key := [], remote_addr := "r", local_addr := "l" }
      { attempts := [.error "dial refused"], writeOk := true,
        cmdRead := .ok .StartForwardTcp, tcpConnect := .ok (),
        demuxEvents := [] }).outcome = .error "dial refused" :=
  ((C8_handshake_backoff
      { session_key := [], remote_addr := "r", local_addr := "l" }).2.2.2
    { attempts := [.error "dial refused"], writeOk := true,
      cmdRead := .ok .StartForwardTcp, tcpConnect := .ok (),
      demuxEvents := [] }
    "dial refused" rfl).1

/-- Claim C9: at every iteration of a UDP forwarder's loop (any reachable
map and outbound state) a fresh UDP_TIMEOUT idle timer is armed, and its
firing terminates the forwarder through the timer branch with Ok, sending
nothing further and removing the visitor's port-map entry. -/
theorem C9_idle_timeout (from' : SocketAddr) (m : List (SocketAddr × Nat))
    (acc : List UdpTraffic) (rest : List FwdEvent)
    (hnodup : (m.map Prod.fst).Nodup) :
    (fwdLoop from' m acc (.timeout :: rest)).outcome = .finished (.ok ()) ∧
    hm_lookup from' (fwdLoop from' m acc (.timeout :: rest)).port_map = none ∧
    (fwdLoop from' m acc (.timeout :: rest)).outbound = acc := by
  refine ⟨rfl, ?_, rfl⟩
  simpa [fwdLoop] using hm_lookup_remove_self from' m hnodup

/-- Witness for C9 at a concrete forwarder state. -/
theorem C9_idle_timeout_witness :
    (fwdLoop "v" [("v", 0), ("w", 1)] [] [.timeout]).outcome =
      .finished (.ok ()) ∧
    hm_lookup "v" (fwdLoop "v" [("v", 0), ("w", 1)] [] [.timeout]).port_map =
      none ∧
    (fwdLoop "v" [("v", 0), ("w", 1)] [] [.timeout]).outbound = [] :=
  C9_idle_timeout "v" [("v", 0), ("w", 1)] [] [] (by simp)

theorem fwdLoop_port_map (from' : SocketAddr) (m : List (SocketAddr × Nat)) :
    ∀ (events : List FwdEvent) (acc : List UdpTraffic),
      ((fwdLoop from' m acc events).outcome = .finished (.ok ()) →
        (fwdLoop from' m acc events).port_map = hm_remove from' m) ∧
      ((fwdLoop from' m acc events).outcome = .blocked →
        (fwdLoop from' m acc events).port_map = m) ∧
      (∀ e, (fwdLoop from' m acc events).outcome = .finished (.error e) →
        (fwdLoop from' m acc events).port_map = m) := by
  intro events
  induction events with
  | nil =>
    intro acc
    refine ⟨?_, ?_, ?_⟩ <;> simp [fwdLoop]
  | cons ev rest ih =>
    intro acc
    cases ev with
    | timeout =>
      refine ⟨?_, ?_, ?_⟩ <;> simp [fwdLoop]
    | inbound data sendRes =>
      cases data with
      | none => refine ⟨?_, ?_, ?_⟩ <;> simp [fwdLoop]
      | some d =>
        cases sendRes with
        | ok u => simpa [fwdLoop] using ih acc
        | error e => refine ⟨?_, ?_, ?_⟩ <;> simp [fwdLoop]
    | localRecv res outRes =>
      cases res with
      | error e => refine ⟨?_, ?_, ?_⟩ <;> simp [fwdLoop]
      | ok d =>
        cases outRes with
        | ok u => simpa [fwdLoop] using ih _
        | error e => refine ⟨?_, ?_, ?_⟩ <;> simp [fwdLoop]

/-- Claim C2 as stated is false: on the local-socket send error path the
question-mark operator returns before the port-map removal. Concretely,
a forwarder for visitor v whose first event is inbound data that fails to
send returns the error with v still in the port map. -/
theorem C2_counterexample :
    (run_udp_forwarder "v" [("v", 0)]
      [.inbound (some [1]) (.error "io")]).outcome =
      .finished (.error "io") ∧
    hm_lookup "v" (run_udp_forwarder "v" [("v", 0)]
      [.inbound (some [1]) (.error "io")]).port_map = some 0 := by
  decide

/-- Claim C2, amended: the port-map entry for from' is removed exactly on
the paths that leave the select loop by break — inbound channel closed,
local socket receive error, idle timeout — all of which return Ok; on a
local-socket send error or an outbound-channel send error the
question-mark operator returns the error immediately and the port map is
left exactly as it was (the entry, if present, survives). -/
theorem C2_port_map_cleanup (from' : SocketAddr) (m : List (SocketAddr × Nat))
    (events : List FwdEvent) (hnodup : (m.map Prod.fst).Nodup) :
    ((run_udp_forwarder from' m events).outcome = .finished (.ok ()) →
      hm_lookup from' (run_udp_forwarder from' m events).port_map = none) ∧
    ((run_udp_forwarder from' m events).outcome = .blocked →
      (run_udp_forwarder from' m events).port_map = m) ∧
    (∀ e, (run_udp_forwarder from' m events).outcome = .finished (.error e) →
      (run_udp_forwarder from' m events).port_map = m) := by
  obtain ⟨h1, h2, h3⟩ := fwdLoop_port_map from' m events []
  refine ⟨?_, h2, h3⟩
  intro hok
  rw [run_udp_forwarder] at hok ⊢
  rw [h1 hok]
  exact hm_lookup_remove_self from' m hnodup

/-- Witness for the amended C2: a clean exit (inbound channel closed)
does remove the entry. -/
theorem C2_port_map_cleanup_witness :
    hm_lookup "v" (run_udp_forwarder "v" [("v", 0)]
      [.inbound none (.ok ())]).port_map = none :=
  (C2_port_map_cleanup "v" [("v", 0)] [.inbound none (.ok ())]
    (by simp)).1 (by decide)

/-- Claim C4 as stated is false for UDP: a failed udp_connect in the
demux loop is logged but does not fail the data-channel worker. After a
dial failure for visitor a, the worker is still running (outcome blocked,
not an error), and the next packet from a dials again, spawns the
forwarder and is delivered. -/
theorem C4_counterexample :
    (run_data_channel { session_key := [], remote_addr := "r", local_addr := "l" }
      { attempts := [.ok ()], writeOk := true,
        cmdRead := .ok .StartForwardUdp, tcpConnect := .ok (),
        demuxEvents := [.packet "a" [1] false, .packet "a" [2] true] }).outcome =
      .blocked ∧
    (run_data_channel { session_key := [], remote_addr := "r", local_addr := "l" }
      { attempts := [.ok ()], writeOk := true,
        cmdRead := .ok .StartForwardUdp, tcpConnect := .ok (),
        demuxEvents := [.packet "a" [1] false, .packet "a" [2] true] }).demux =
      some ⟨[("a", 0)], ["a"], [("a", [2])], 1, .blocked⟩ := by
  decide

/-- Claim C4, amended: a failure to connect to the local service on TCP
is logged and fails the current data-channel worker with the context
naming local_addr; a failed udp_connect in the UDP demux loop is only
logged as an error and the packet dropped — the loop, and with it the
worker, continues exactly as if the packet had not arrived; only
subsequent packets or CreateDataChannel commands retry. -/
theorem C4_local_dial_failure (args : RunDataChannelArgs) :
    (∀ (script : DataChannelScript) (e : String),
      (retry_notify script.attempts).2 = .ok () →
      script.writeOk = true →
      script.cmdRead = .ok .StartForwardTcp →
      script.tcpConnect = .error e →
      (run_data_channel args script).outcome =
        .error ("Failed to connect to local_addr: " ++ e)) ∧
    (∀ (nextId : Nat) (m : List (SocketAddr × Nat)) (src : SocketAddr)
        (data : Bytes) (rest : List DemuxEvent),
      hm_lookup src m = none →
      demuxLoop nextId m (.packet src data false :: rest) =
        { port_map := (demuxLoop nextId m rest).port_map,
          spawnedF := (demuxLoop nextId m rest).spawnedF,
          delivered := (demuxLoop nextId m rest).delivered,
          connectErrLogs := 1 + (demuxLoop nextId m rest).connectErrLogs,
          outcome := (demuxLoop nextId m rest).outcome }) := by
  constructor
  · intro script e hdial hwrite hcmd htcp
    simp [run_data_channel, do_data_channel_handshake, hdial, hwrite, hcmd,
      run_data_channel_for_tcp, htcp]
  · intro nextId m src data rest hlook
    simp [demuxLoop, demuxStep, hlook]

/-- Witness for the amended C4: a concrete refused TCP connect fails the
worker with the local_addr context. -/
theorem C4_local_dial_failure_witness :
    (run_data_channel { session_key := [], remote_addr := "r", local_addr := "l" }
      { attempts := [.ok ()], writeOk := true,
        cmdRead := .ok .StartForwardTcp, tcpConnect := .error "refused",
        demuxEvents := [] }).outcome =
      .error ("Failed to connect to local_addr: " ++ "refused") :=
  (C4_local_dial_failure
      { session_key := [], remote_addr := "r", local_addr := "l" }).1
    { attempts := [.ok ()], writeOk := true,
      cmdRead := .ok .StartForwardTcp, tcpConnect := .error "refused",
      demuxEvents := [] }
    "refused" rfl rfl rfl rfl

end Rathole
